import Mathlib

set_option allowUnsafeReducibility true

attribute [local semireducible] Rat.ofScientific Rat.mul Rat.inv Rat.add Rat.sub Rat.div

/-!
Verification of the fraud alerts pipeline (`src/ml/fraudAlertsPipeline.py`).

This file gives a shallow embedding of the pipeline's data model and
operations and proves the spec's claims about them:

* `Sha256` — a byte-level SHA-256 (needed because alert ids and the mock
  contract addresses are SHA-256 digests in the source).
* `AlertSeverity`, `FraudType`, `DetectionResult`, `FeedEvent` — the data model.
* `FraudDetector` — the detector bank (`detect_fraud` and the individual
  `_detect_*` heuristics).  Python exceptions (the sandwich detector divides
  by `recent[0]` without a zero guard) are made explicit with `Except PyErr`.
* `AlertDeduplicator` — the cooldown gate (`should_alert`).
* `AlertNotifier` — the webhook channel's success predicate.
* `FraudAlertsPipeline` — alert creation, circuit breaker, and the message
  handlers, wrapped in a small step machine so temporal claims can be stated.

Numbers are embedded as `ℚ` (Python floats are used as exact decimals in the
source constants), time as rational seconds (`datetime` differences are taken
via `total_seconds()`), and per-feed dictionaries as functions out of `String`.
Presentational fields of the source (log strings, the formatted
`description` text and the `evidence` dictionaries, message bodies for the
chat channels) are elided: no claim depends on them.
-/

namespace Sha256

/-- Modulus for 32-bit words. -/
def M32 : ℕ := 2 ^ 32

/-- Right rotation of a 32-bit word. -/
def rotr (n x : ℕ) : ℕ := ((x >>> n) ||| (x <<< (32 - n))) % M32

/-- The SHA-256 round constants (fractional parts of the cube roots of the first 64 primes), written in decimal. -/
def K : List ℕ :=
  [1116352408, 1899447441, 3049323471, 3921009573, 961987163, 1508970993,
   2453635748, 2870763221, 3624381080, 310598401, 607225278, 1426881987,
   1925078388, 2162078206, 2614888103, 3248222580, 3835390401, 4022224774,
   264347078, 604807628, 770255983, 1249150122, 1555081692, 1996064986,
   2554220882, 2821834349, 2952996808, 3210313671, 3336571891, 3584528711,
   113926993, 338241895, 666307205, 773529912, 1294757372, 1396182291,
   1695183700, 1986661051, 2177026350, 2456956037, 2730485921, 2820302411,
   3259730800, 3345764771, 3516065817, 3600352804, 4094571909, 275423344,
   430227734, 506948616, 659060556, 883997877, 958139571, 1322822218,
   1537002063, 1747873779, 1955562222, 2024104815, 2227730452, 2361852424,
   2428436474, 2756734187, 3204031479, 3329325298]

/-- The eight 32-bit hash words. -/
structure HState where
  a : ℕ
  b : ℕ
  c : ℕ
  d : ℕ
  e : ℕ
  f : ℕ
  g : ℕ
  h : ℕ
deriving DecidableEq

/-- Initial hash value (fractional parts of the square roots of the first 8 primes), written in decimal. -/
def H0 : HState :=
  ⟨1779033703, 3144134277, 1013904242, 2773480762, 1359893119, 2600822924, 528734635, 1541459225⟩

/-- Pad a byte message to a multiple of 64 bytes (0x80, zeros, 64-bit big-endian bit length). -/
def padBytes (msg : List ℕ) : List ℕ :=
  let L := msg.length
  let zeros := (119 - L % 64) % 64
  msg ++ [0x80] ++ List.replicate zeros 0 ++
    (List.range 8).map (fun i => ((8 * L) >>> (8 * (7 - i))) % 256)

/-- The sixteen big-endian 32-bit words of chunk `ci` of a padded message. -/
def chunkWords (padded : List ℕ) (ci : ℕ) : List ℕ :=
  (List.range 16).map (fun wi =>
    let b := fun j => (padded.getD (64 * ci + 4 * wi + j) 0)
    (b 0) <<< 24 ||| (b 1) <<< 16 ||| (b 2) <<< 8 ||| (b 3))

/-- Extend sixteen schedule words to sixty-four. -/
def extendWords (w16 : List ℕ) : List ℕ :=
  (List.range 48).foldl (fun w _ =>
    let n := w.length
    let w15 := w.getD (n - 15) 0
    let w2 := w.getD (n - 2) 0
    let s0 := (rotr 7 w15) ^^^ (rotr 18 w15) ^^^ (w15 >>> 3)
    let s1 := (rotr 17 w2) ^^^ (rotr 19 w2) ^^^ (w2 >>> 10)
    w ++ [(w.getD (n - 16) 0 + s0 + w.getD (n - 7) 0 + s1) % M32]) w16

/-- One compression round. -/
def round (st : HState) (ki wi : ℕ) : HState :=
  let S1 := (rotr 6 st.e) ^^^ (rotr 11 st.e) ^^^ (rotr 25 st.e)
  let ch := (st.e &&& st.f) ^^^ ((M32 - 1 - st.e) &&& st.g)
  let temp1 := (st.h + S1 + ch + ki + wi) % M32
  let S0 := (rotr 2 st.a) ^^^ (rotr 13 st.a) ^^^ (rotr 22 st.a)
  let maj := (st.a &&& st.b) ^^^ (st.a &&& st.c) ^^^ (st.b &&& st.c)
  let temp2 := (S0 + maj) % M32
  ⟨(temp1 + temp2) % M32, st.a, st.b, st.c, (st.d + temp1) % M32, st.e, st.f, st.g⟩

/-- Compress one 64-word schedule into the running hash state. -/
def compress (hs : HState) (w : List ℕ) : HState :=
  let fin := (List.range 64).foldl (fun st i => round st (K.getD i 0) (w.getD i 0)) hs
  ⟨(hs.a + fin.a) % M32, (hs.b + fin.b) % M32, (hs.c + fin.c) % M32, (hs.d + fin.d) % M32,
   (hs.e + fin.e) % M32, (hs.f + fin.f) % M32, (hs.g + fin.g) % M32, (hs.h + fin.h) % M32⟩

/-- SHA-256 of a byte list. -/
def sha256Bytes (msg : List ℕ) : HState :=
  let padded := padBytes msg
  (List.range (padded.length / 64)).foldl
    (fun hs ci => compress hs (extendWords (chunkWords padded ci))) H0

/-- Lower-case hex digit. -/
def hexDigit (n : ℕ) : Char :=
  if n < 10 then Char.ofNat (48 + n) else Char.ofNat (87 + n)

/-- Eight hex characters of one 32-bit word. -/
def wordHexChars (x : ℕ) : List Char :=
  (List.range 8).map (fun i => hexDigit ((x >>> (4 * (7 - i))) % 16))

/-- The 64 hex characters of a digest. -/
def digestChars (hs : HState) : List Char :=
  wordHexChars hs.a ++ wordHexChars hs.b ++ wordHexChars hs.c ++ wordHexChars hs.d ++
  wordHexChars hs.e ++ wordHexChars hs.f ++ wordHexChars hs.g ++ wordHexChars hs.h

/-- UTF-8 encoding of one character (what Python's `str.encode()` produces). -/
def utf8EncodeCharNat (c : Char) : List ℕ :=
  let n := c.toNat
  if n < 0x80 then [n]
  else if n < 0x800 then [0xC0 ||| (n >>> 6), 0x80 ||| (n &&& 0x3F)]
  else if n < 0x10000 then
    [0xE0 ||| (n >>> 12), 0x80 ||| ((n >>> 6) &&& 0x3F), 0x80 ||| (n &&& 0x3F)]
  else
    [0xF0 ||| (n >>> 18), 0x80 ||| ((n >>> 12) &&& 0x3F),
     0x80 ||| ((n >>> 6) &&& 0x3F), 0x80 ||| (n &&& 0x3F)]

/-- UTF-8 bytes of a string. -/
def utf8Bytes (s : String) : List ℕ := s.data.flatMap utf8EncodeCharNat

/-- Characters of `hashlib.sha256(s.encode()).hexdigest()`. -/
def hexdigestChars (s : String) : List Char := digestChars (sha256Bytes (utf8Bytes s))

end Sha256

/-- Alert severity levels (`class AlertSeverity(Enum)`). -/
inductive AlertSeverity where
  | CRITICAL
  | HIGH
  | MEDIUM
  | LOW
  | INFO
deriving DecidableEq

/-- The `.value` string of a severity. -/
def AlertSeverity.value : AlertSeverity → String
  | .CRITICAL => "CRITICAL"
  | .HIGH => "HIGH"
  | .MEDIUM => "MEDIUM"
  | .LOW => "LOW"
  | .INFO => "INFO"

/-- Types of fraud/anomaly detected (`class FraudType(Enum)`). -/
inductive FraudType where
  | PRICE_MANIPULATION
  | FLASH_LOAN_ATTACK
  | ORACLE_SPOOFING
  | COORDINATED_ATTACK
  | VOLUME_ANOMALY
  | LATENCY_SPIKE
  | SOURCE_DEGRADATION
  | REPLAY_ATTACK
  | SANDWICH_ATTACK
  | MEV_EXTRACTION
deriving DecidableEq

/-- The `.value` string of a fraud type. -/
def FraudType.value : FraudType → String
  | .PRICE_MANIPULATION => "PRICE_MANIPULATION"
  | .FLASH_LOAN_ATTACK => "FLASH_LOAN_ATTACK"
  | .ORACLE_SPOOFING => "ORACLE_SPOOFING"
  | .COORDINATED_ATTACK => "COORDINATED_ATTACK"
  | .VOLUME_ANOMALY => "VOLUME_ANOMALY"
  | .LATENCY_SPIKE => "LATENCY_SPIKE"
  | .SOURCE_DEGRADATION => "SOURCE_DEGRADATION"
  | .REPLAY_ATTACK => "REPLAY_ATTACK"
  | .SANDWICH_ATTACK => "SANDWICH_ATTACK"
  | .MEV_EXTRACTION => "MEV_EXTRACTION"

/-- One detection dictionary as produced by the `_detect_*` methods.
The formatted `description` string and the `evidence` dictionary are
presentational and elided. -/
structure DetectionResult where
  fraud_type : FraudType
  severity : AlertSeverity
  confidence : ℚ
  score : ℚ
  potential_loss : ℚ
deriving DecidableEq

/-- A `price:update` message (`feed_data` in the source).  The `timestamp`
field is elided: the detectors only buffer it to feed the opaque ML scorer. -/
structure FeedEvent where
  feed_name : String
  price : ℚ
  volume : ℚ
  source_count : ℚ
  latency_ms : ℚ
deriving DecidableEq

/-- A Python runtime error raised inside a detector. -/
inductive PyErr where
  | zeroDivisionError
deriving DecidableEq

/-- Decidable equality for embedded fallible computations. -/
instance {ε α : Type} [DecidableEq ε] [DecidableEq α] : DecidableEq (Except ε α) := fun a b =>
  match a, b with
  | .error x, .error y =>
    if h : x = y then .isTrue (by rw [h]) else .isFalse (fun he => h (Except.error.inj he))
  | .ok x, .ok y =>
    if h : x = y then .isTrue (by rw [h]) else .isFalse (fun he => h (Except.ok.inj he))
  | .error _, .ok _ => .isFalse (fun he => Except.noConfusion he)
  | .ok _, .error _ => .isFalse (fun he => Except.noConfusion he)

/-- Division as Python evaluates it: raises `ZeroDivisionError` on a zero
denominator instead of returning a junk value. -/
def pydiv (x y : ℚ) : Except PyErr ℚ :=
  if y = 0 then .error .zeroDivisionError else .ok (x / y)

/-- Python's `l[-k]` (defaulting to 0; all uses are guarded by length checks). -/
def nthFromEnd (l : List ℚ) (k : ℕ) : ℚ := l.getD (l.length - k) 0

/-- Python's `l[-n:]`. -/
def lastN (n : ℕ) (l : List ℚ) : List ℚ := l.drop (l.length - n)

/-- Python's `np.mean`. -/
def listMean (l : List ℚ) : ℚ := l.sum / (l.length : ℚ)

namespace FraudDetector

/-- `self.thresholds['price_change']`. -/
def price_change_threshold : ℚ := 15 / 100

/-- `self.thresholds['volume_spike']`. -/
def volume_spike_threshold : ℚ := 5

/-- `self.thresholds['latency_spike']`. -/
def latency_spike_threshold : ℚ := 1000

/-- `self.thresholds['source_minimum']`. -/
def source_minimum : ℚ := 3

/-- `self.thresholds['anomaly_score']`. -/
def anomaly_score_threshold : ℚ := 85 / 100

/-- `_estimate_loss`: `change * volume * 0.1`. -/
def estimate_loss (change volume : ℚ) : ℚ := change * volume * (1 / 10)

/-- `_is_flash_loan_pattern`: both of the moves `recent[0]→recent[1]` and
`recent[2]→recent[3]` of the last four prices exceed 10 % in magnitude.
The guards `if recent[i] != 0 else 0` are the source's conditional
expressions. -/
def is_flash_loan_pattern (prices : List ℚ) : Bool :=
  if prices.length < 4 then false
  else
    let recent := lastN 4 prices
    let r0 := recent.getD 0 0
    let r1 := recent.getD 1 0
    let r2 := recent.getD 2 0
    let r3 := recent.getD 3 0
    let change1 := if r0 ≠ 0 then |r1 - r0| / r0 else 0
    let change2 := if r2 ≠ 0 then |r3 - r2| / r2 else 0
    decide (change1 > 1 / 10) && decide (change2 > 1 / 10)

/-- The flash-loan trigger as the spec words it (for comparison with
`is_flash_loan_pattern`): two moves of more than 10 % each among the last
four price points that are in opposite directions. -/
def flash_loan_spec_pattern (prices : List ℚ) : Bool :=
  if prices.length < 4 then false
  else
    let recent := lastN 4 prices
    let r0 := recent.getD 0 0
    let r1 := recent.getD 1 0
    let r2 := recent.getD 2 0
    let r3 := recent.getD 3 0
    let change1 := if r0 ≠ 0 then |r1 - r0| / r0 else 0
    let change2 := if r2 ≠ 0 then |r3 - r2| / r2 else 0
    decide (change1 > 1 / 10) && decide (change2 > 1 / 10) &&
      decide ((r1 - r0) * (r3 - r2) < 0)

/-- `_detect_price_manipulation` (the flash-loan sub-pattern included). -/
def detect_price_manipulation (prices : List ℚ) (volume : ℚ) : List DetectionResult :=
  if prices.length < 2 then []
  else
    let current_price := nthFromEnd prices 1
    let previous_price := nthFromEnd prices 2
    if previous_price = 0 then []
    else
      let change := |current_price - previous_price| / previous_price
      if change > price_change_threshold then
        let severity := if change > 1 / 2 then AlertSeverity.CRITICAL else AlertSeverity.HIGH
        let confidence := min (change / price_change_threshold) 1
        let base : DetectionResult :=
          { fraud_type := .PRICE_MANIPULATION, severity := severity, confidence := confidence,
            score := change, potential_loss := estimate_loss change volume }
        if is_flash_loan_pattern prices then
          [base,
           { fraud_type := .FLASH_LOAN_ATTACK, severity := .CRITICAL, confidence := 85 / 100,
             score := 9 / 10, potential_loss := estimate_loss change volume * 2 }]
        else [base]
      else []

/-- `_detect_volume_anomaly`. -/
def detect_volume_anomaly (volumes : List ℚ) : List DetectionResult :=
  if volumes.length < 10 then []
  else
    let avg_volume := listMean volumes.dropLast
    let current_volume := nthFromEnd volumes 1
    if avg_volume = 0 then []
    else
      let spike_ratio := current_volume / avg_volume
      if spike_ratio > volume_spike_threshold then
        [{ fraud_type := .VOLUME_ANOMALY,
           severity := if spike_ratio > 10 then .HIGH else .MEDIUM,
           confidence := min (spike_ratio / (volume_spike_threshold * 2)) 1,
           score := spike_ratio / 10,
           potential_loss := current_volume * (1 / 100) }]
      else []

/-- `_detect_latency_spike`. -/
def detect_latency_spike (latency : ℚ) : List DetectionResult :=
  if latency > latency_spike_threshold then
    [{ fraud_type := .LATENCY_SPIKE,
       severity := if latency > 2000 then .HIGH else .MEDIUM,
       confidence := 9 / 10,
       score := latency / latency_spike_threshold,
       potential_loss := 0 }]
  else []

/-- `_detect_source_degradation`. -/
def detect_source_degradation (source_count : ℚ) : List DetectionResult :=
  if source_count < source_minimum then
    [{ fraud_type := .SOURCE_DEGRADATION,
       severity := if source_count ≤ 1 then .CRITICAL else .HIGH,
       confidence := 95 / 100,
       score := 1 - source_count / source_minimum,
       potential_loss := 10000 * (source_minimum - source_count) }]
  else []

/-- `_detect_sandwich_attack`.  The source divides by `recent[0]` with no
zero guard, so the embedding is in `Except`; Python's short-circuit `and`
means the division only happens when the first comparison holds. -/
def detect_sandwich_attack (prices : List ℚ) : Except PyErr (List DetectionResult) :=
  if prices.length < 3 then .ok []
  else if 5 ≤ prices.length then
    let recent := lastN 5 prices
    let r0 := recent.getD 0 0
    let r2 := recent.getD 2 0
    let r4 := recent.getD 4 0
    if r2 > r0 * (102 / 100) then
      match pydiv |r4 - r0| r0 with
      | .error e => .error e
      | .ok dev =>
        if dev < 1 / 100 then
          .ok [{ fraud_type := .SANDWICH_ATTACK, severity := .HIGH, confidence := 3 / 4,
                 score := 8 / 10, potential_loss := r0 * (2 / 100) }]
        else .ok []
    else .ok []
  else .ok []

/-- `_detect_with_ml`.  The DataFrame build, feature extraction and scorer
call are the opaque external scorer of the spec; their combined outcome is
the `scorer` argument (`.error` = any exception inside the `try`, swallowed
by the handler; `.ok s` = the raw anomaly score).  `model_loaded` is
`self.model and self.feature_extractor`. -/
def detect_with_ml (prices : List ℚ) (model_loaded : Bool) (scorer : Except PyErr ℚ) :
    List DetectionResult :=
  if !model_loaded then []
  else if prices.length < 50 then []
  else
    match scorer with
    | .error _ => []
    | .ok score =>
      let normalized_score := min (max score 0) 1
      if normalized_score > anomaly_score_threshold then
        [{ fraud_type := .ORACLE_SPOOFING,
           severity :=
             if normalized_score > 95 / 100 then .CRITICAL
             else if normalized_score > 9 / 10 then .HIGH
             else .MEDIUM,
           confidence := normalized_score,
           score := normalized_score,
           potential_loss := normalized_score * 50000 }]
      else []

/-- The per-feed rolling buffers (`self.price_buffer` / `self.volume_buffer`,
`deque(maxlen=100)` keyed by feed name; an unseen feed starts empty).  The
timestamp buffer is elided: it only feeds the opaque scorer. -/
structure Buffers where
  price_buffer : String → List ℚ
  volume_buffer : String → List ℚ

/-- Append to a `deque(maxlen=100)`. -/
def pushBuffer (l : List ℚ) (x : ℚ) : List ℚ := lastN 100 (l ++ [x])

/-- The detections of one event over the already-updated buffers, in source
order; an exception from the sandwich detector propagates and the ML
detector never runs (its own failures are swallowed inside `detect_with_ml`). -/
def run_detectors (prices volumes : List ℚ) (ev : FeedEvent)
    (model_loaded : Bool) (scorer : Except PyErr ℚ) : Except PyErr (List DetectionResult) :=
  let d1 := detect_price_manipulation prices ev.volume
  let d2 := detect_volume_anomaly volumes
  let d3 := detect_latency_spike ev.latency_ms
  let d4 := detect_source_degradation ev.source_count
  match detect_sandwich_attack prices with
  | .error e => .error e
  | .ok d5 =>
    let d6 := detect_with_ml prices model_loaded scorer
    .ok (d1 ++ d2 ++ d3 ++ d4 ++ d5 ++ d6)

/-- `detect_fraud`: update the feed's buffers, then run every detector.
The buffer mutation survives even when a detector raises (Python mutates
`self` before the exception). -/
def detect_fraud (bufs : Buffers) (ev : FeedEvent) (model_loaded : Bool)
    (scorer : Except PyErr ℚ) : Buffers × Except PyErr (List DetectionResult) :=
  let prices := pushBuffer (bufs.price_buffer ev.feed_name) ev.price
  let volumes := pushBuffer (bufs.volume_buffer ev.feed_name) ev.volume
  let bufs' : Buffers :=
    ⟨Function.update bufs.price_buffer ev.feed_name prices,
     Function.update bufs.volume_buffer ev.feed_name volumes⟩
  (bufs', run_detectors prices volumes ev model_loaded scorer)

end FraudDetector

/-- `class AlertDeduplicator`: per-(feed, fraud-type) cooldown state.
`recent_alerts` and `alert_counts` are the two dictionaries; time is in
seconds (`datetime` differences are taken with `total_seconds()`). -/
structure AlertDeduplicator where
  cooldown_minutes : ℚ
  recent_alerts : String → Option ℚ
  alert_counts : String → ℕ

namespace AlertDeduplicator

/-- The dictionary key `f"{feed_name}:{fraud_type}"`. -/
def dedupKey (feed_name fraud_type : String) : String := feed_name ++ ":" ++ fraud_type

/-- `_increment_count`. -/
def increment_count (st : AlertDeduplicator) (key : String) : AlertDeduplicator :=
  { st with alert_counts := Function.update st.alert_counts key (st.alert_counts key + 1) }

/-- `should_alert(feed_name, fraud_type, severity)` at wall-clock time `now`
(seconds): CRITICAL stamps `recent_alerts[key] = now` and returns `True`
without touching the counter; otherwise a key seen within
`cooldown_minutes` returns `False` with no mutation, and an admitted key is
stamped and counted. -/
def should_alert (st : AlertDeduplicator) (feed_name fraud_type : String)
    (severity : AlertSeverity) (now : ℚ) : Bool × AlertDeduplicator :=
  let key := dedupKey feed_name fraud_type
  if severity = .CRITICAL then
    (true, { st with recent_alerts := Function.update st.recent_alerts key (some now) })
  else
    let admitted : AlertDeduplicator :=
      increment_count { st with recent_alerts := Function.update st.recent_alerts key (some now) } key
    match st.recent_alerts key with
    | some last =>
      if (now - last) / 60 < st.cooldown_minutes then (false, st)
      else (true, admitted)
    | none => (true, admitted)

/-- `cleanup_old_entries`: drop entries older than the retention cutoff. -/
def cleanup_old_entries (st : AlertDeduplicator) (now : ℚ) (max_age_hours : ℚ) : AlertDeduplicator :=
  { st with recent_alerts := fun k =>
      match st.recent_alerts k with
      | some v => if v > now - max_age_hours * 3600 then some v else none
      | none => none }

end AlertDeduplicator

/-- The outcome of one HTTP POST as seen by a notification channel: a
response with a status code, or a raised transport exception. -/
inductive HttpOutcome where
  | ok (status : ℕ)
  | exn
deriving DecidableEq

namespace AlertNotifier

/-- `_send_webhook`: the recorded result of the webhook channel.  The source
compares the response status with 200 and converts any exception to `False`. -/
def send_webhook (response : HttpOutcome) : Bool :=
  match response with
  | .ok status => status == 200
  | .exn => false

end AlertNotifier

/-- The alert record (`@dataclass FraudAlert`).  `description` and
`evidence` are elided (presentational). -/
structure FraudAlert where
  id : String
  timestamp : String
  feed_name : String
  fraud_type : String
  severity : String
  confidence : ℚ
  anomaly_score : ℚ
  recommended_actions : List String
  affected_contracts : List String
  potential_loss_usd : ℚ
  is_acknowledged : Bool
  acknowledged_by : Option String
  resolution_status : String
  tags : List String
deriving DecidableEq

/-- The configuration fields of `PipelineConfig` that the embedded logic
reads (connection strings, channel credentials and batch tuning are I/O
configuration and elided). -/
structure PipelineConfig where
  alert_cooldown_minutes : ℚ
  enable_auto_circuit_break : Bool
  circuit_break_threshold : ℚ
deriving DecidableEq

/-- A pre-classified `anomaly:detected` message, after `dict.get` defaults. -/
structure AnomalyData where
  feed_name : String
  confidence : ℚ
  score : ℚ
  potential_loss : ℚ
deriving DecidableEq

namespace FraudAlertsPipeline

/-- `_generate_alert_id`: the first 16 hex characters of the SHA-256 digest
of `f"{feed_name}:{fraud_type}:{now_iso}"`, where `now_iso` is the
`datetime.now().isoformat()` string at generation time. -/
def generate_alert_id (feed_name fraud_type now_iso : String) : String :=
  String.mk ((Sha256.hexdigestChars (feed_name ++ ":" ++ fraud_type ++ ":" ++ now_iso)).take 16)

/-- `_get_recommended_actions`: the static action table, with the emergency
action inserted at the front for CRITICAL severity. -/
def get_recommended_actions (fraud_type : FraudType) (severity : AlertSeverity) : List String :=
  let base : List String :=
    match fraud_type with
    | .PRICE_MANIPULATION =>
        ["Halt oracle updates temporarily", "Cross-reference with other sources",
         "Review recent oracle submissions", "Check for coordinated attack patterns"]
    | .FLASH_LOAN_ATTACK =>
        ["CRITICAL: Pause affected contracts immediately", "Enable TWAP-based pricing",
         "Increase oracle heartbeat frequency", "Review transaction sequencing"]
    | .ORACLE_SPOOFING =>
        ["Verify oracle source authenticity", "Check ZK proof validity",
         "Slash suspicious oracles", "Enable stricter deviation checks"]
    | .SOURCE_DEGRADATION =>
        ["Increase minimum source threshold", "Activate backup oracles",
         "Monitor for oracle censorship", "Enable emergency mode"]
    | .SANDWICH_ATTACK =>
        ["Review MEV protection measures", "Implement private transaction pool",
         "Add slippage protection", "Monitor mempool activity"]
    | _ => ["Monitor closely", "Investigate further"]
  if severity = .CRITICAL then "EMERGENCY: Activate circuit breaker NOW" :: base else base

/-- `_get_affected_contracts`: the mock address derived from the feed name. -/
def get_affected_contracts (feed_name : String) : List String :=
  ["0x" ++ String.mk ((Sha256.hexdigestChars feed_name).take 40)]

/-- `_generate_tags`. -/
def generate_tags (fraud_type : FraudType) (severity : AlertSeverity) : List String :=
  let tags := [fraud_type.value, severity.value]
  let tags := if severity = .CRITICAL ∨ severity = .HIGH then tags ++ ["URGENT"] else tags
  if fraud_type = .FLASH_LOAN_ATTACK ∨ fraud_type = .SANDWICH_ATTACK then
    tags ++ ["MEV_RELATED"]
  else tags

/-- `_create_alert`.  The source calls `datetime.now()` twice (once inside
`_generate_alert_id`, once for the `timestamp` field), microseconds apart;
the embedding passes the one ISO string `now_iso` for both. -/
def create_alert (feed_name : String) (fraud_type : FraudType) (severity : AlertSeverity)
    (confidence score potential_loss : ℚ) (now_iso : String) : FraudAlert :=
  { id := generate_alert_id feed_name fraud_type.value now_iso
    timestamp := now_iso
    feed_name := feed_name
    fraud_type := fraud_type.value
    severity := severity.value
    confidence := confidence
    anomaly_score := score
    recommended_actions := get_recommended_actions fraud_type severity
    affected_contracts := get_affected_contracts feed_name
    potential_loss_usd := potential_loss
    is_acknowledged := false
    acknowledged_by := none
    resolution_status := "OPEN"
    tags := generate_tags fraud_type severity }

/-- The pipeline's in-memory state: detector buffers, dedup state, the
`alerts_generated` list and the set of feeds with an active circuit breaker. -/
structure PipelineState where
  detector : FraudDetector.Buffers
  dedup : AlertDeduplicator
  alerts_generated : List FraudAlert
  circuit_breaker_active : Finset String

/-- `_activate_circuit_breaker` (the published bus event carries only the
feed name, alert id and timestamp and is not part of the state). -/
def activate_circuit_breaker (st : PipelineState) (feed_name : String)
    (_alert : FraudAlert) : PipelineState :=
  { st with circuit_breaker_active := insert feed_name st.circuit_breaker_active }

/-- `deactivate_circuit_breaker` (`set.discard`). -/
def deactivate_circuit_breaker (st : PipelineState) (feed_name : String) : PipelineState :=
  { st with circuit_breaker_active := st.circuit_breaker_active.erase feed_name }

/-- `_send_alert`: append to `alerts_generated`; the Redis store write and
`notify_all_channels` fan-out are I/O performed for exactly the appended
alerts (the step trace below records them). -/
def send_alert (st : PipelineState) (alert : FraudAlert) : PipelineState :=
  { st with alerts_generated := st.alerts_generated ++ [alert] }

/-- `_process_detection`: dedup gate, then alert creation, `_send_alert`,
and the auto circuit break on a high raw score.  Returns the new state and
the alerts this detection sent. -/
def process_detection (cfg : PipelineConfig) (st : PipelineState) (feed_name : String)
    (d : DetectionResult) (now : ℚ) (now_iso : String) : PipelineState × List FraudAlert :=
  let r := st.dedup.should_alert feed_name d.fraud_type.value d.severity now
  let st0 := { st with dedup := r.2 }
  if r.1 then
    let alert := create_alert feed_name d.fraud_type d.severity d.confidence d.score
      d.potential_loss now_iso
    let st1 := send_alert st0 alert
    if cfg.enable_auto_circuit_break && decide (d.score > cfg.circuit_break_threshold) then
      (activate_circuit_breaker st1 feed_name alert, [alert])
    else (st1, [alert])
  else (st0, [])

/-- The `for detection in detections` loop of `_handle_price_update`. -/
def process_detections (cfg : PipelineConfig) (feed_name : String) (now : ℚ) (now_iso : String) :
    PipelineState → List DetectionResult → PipelineState × List FraudAlert
  | st, [] => (st, [])
  | st, d :: ds =>
    let r1 := process_detection cfg st feed_name d now now_iso
    let r2 := process_detections cfg feed_name now now_iso r1.1 ds
    (r2.1, r1.2 ++ r2.2)

/-- What one pipeline step did: the feed on which the detector bank was
evaluated (if any) and the alerts stored-and-dispatched by `_send_alert`. -/
structure StepTrace where
  detector_ran_on : Option String
  emitted : List FraudAlert
deriving DecidableEq

/-- `_handle_price_update`: a feed with an active circuit breaker is skipped
before any detection; otherwise the detector bank runs and each detection
is processed.  A detector exception reaches `_process_message`'s handler:
the event's detections are dropped but the buffer mutation persists. -/
def handle_price_update (cfg : PipelineConfig) (st : PipelineState) (ev : FeedEvent)
    (model_loaded : Bool) (scorer : Except PyErr ℚ) (now : ℚ) (now_iso : String) :
    PipelineState × StepTrace :=
  if ev.feed_name ∈ st.circuit_breaker_active then (st, ⟨none, []⟩)
  else
    let r := FraudDetector.detect_fraud st.detector ev model_loaded scorer
    let st1 := { st with detector := r.1 }
    match r.2 with
    | .error _ => (st1, ⟨some ev.feed_name, []⟩)
    | .ok dets =>
      let r2 := process_detections cfg ev.feed_name now now_iso st1 dets
      (r2.1, ⟨some ev.feed_name, r2.2⟩)

/-- `_handle_external_anomaly`: build an ORACLE_SPOOFING / HIGH alert from
the message fields and send it — no dedup check, no circuit-breaker check. -/
def handle_external_anomaly (st : PipelineState) (d : AnomalyData) (now_iso : String) :
    PipelineState × StepTrace :=
  let alert := create_alert d.feed_name .ORACLE_SPOOFING .HIGH d.confidence d.score
    d.potential_loss now_iso
  (send_alert st alert, ⟨none, [alert]⟩)

/-- One unit of pipeline work: a bus message on either topic, or the
explicit `deactivate_circuit_breaker` operator command. -/
inductive PipelineOp where
  | priceUpdate (ev : FeedEvent) (model_loaded : Bool) (scorer : Except PyErr ℚ)
      (now : ℚ) (now_iso : String)
  | anomalyDetected (d : AnomalyData) (now_iso : String)
  | deactivate (feed_name : String)
deriving DecidableEq

/-- Dispatch of one op (`_process_message` / the deactivation command). -/
def step (cfg : PipelineConfig) (st : PipelineState) : PipelineOp → PipelineState × StepTrace
  | .priceUpdate ev ml sc now iso => handle_price_update cfg st ev ml sc now iso
  | .anomalyDetected d iso => handle_external_anomaly st d iso
  | .deactivate f => (deactivate_circuit_breaker st f, ⟨none, []⟩)

/-- Run a list of ops, collecting each step's trace. -/
def run (cfg : PipelineConfig) : PipelineState → List PipelineOp → PipelineState × List StepTrace
  | st, [] => (st, [])
  | st, op :: ops =>
    let r := step cfg st op
    let rs := run cfg r.1 ops
    (rs.1, r.2 :: rs.2)

end FraudAlertsPipeline

/-! Concrete fixtures used by witnesses and counterexamples. -/

/-- An empty dedup state with the default 5-minute cooldown. -/
def dedup0 : AlertDeduplicator := ⟨5, fun _ => none, fun _ => 0⟩

/-- Empty rolling buffers (a fresh pipeline). -/
def bufsEmpty : FraudDetector.Buffers := ⟨fun _ => [], fun _ => []⟩

/-- A high-latency event on a fresh feed. -/
def evLatency : FeedEvent := ⟨"FEED", 5, 0, 5, 1500⟩

/-- The latency detection that `evLatency` produces. -/
def detLatency : DetectionResult := ⟨.LATENCY_SPIKE, .MEDIUM, 9 / 10, 3 / 2, 0⟩

/-- The default pipeline configuration fields read by the embedded logic. -/
def cfg0 : PipelineConfig := ⟨5, true, 95 / 100⟩

/-! ## C1, C5, C8 — the Deduplicator -/

namespace AlertDeduplicator

/-- C1: a CRITICAL `should_alert` call always returns `True` and stamps
`recent_alerts[(feed, fraud_type)] = now`, whatever the prior cooldown
state; hence a non-CRITICAL detection of the same key within
`cooldown_minutes` of the CRITICAL one is rejected. -/
theorem critical_bypasses_and_resets_cooldown
    (st : AlertDeduplicator) (feed_name fraud_type : String) (t1 t2 : ℚ)
    (sev2 : AlertSeverity) (hs : sev2 ≠ .CRITICAL)
    (ht : (t2 - t1) / 60 < st.cooldown_minutes) :
    (st.should_alert feed_name fraud_type .CRITICAL t1).1 = true ∧
    (st.should_alert feed_name fraud_type .CRITICAL t1).2.recent_alerts
      (dedupKey feed_name fraud_type) = some t1 ∧
    ((st.should_alert feed_name fraud_type .CRITICAL t1).2.should_alert
      feed_name fraud_type sev2 t2).1 = false := by
  refine ⟨rfl, by simp [should_alert], ?_⟩
  simp [should_alert, hs, ht]

/-- Witness for C1: concrete CRITICAL-then-HIGH calls one minute apart. -/
theorem critical_bypasses_and_resets_cooldown_witness :
    AlertSeverity.HIGH ≠ AlertSeverity.CRITICAL ∧
    ((60 : ℚ) - 0) / 60 < dedup0.cooldown_minutes ∧
    ((dedup0.should_alert "ETH/USD" "PRICE_MANIPULATION" .CRITICAL 0).1 = true ∧
     (dedup0.should_alert "ETH/USD" "PRICE_MANIPULATION" .CRITICAL 0).2.recent_alerts
       (dedupKey "ETH/USD" "PRICE_MANIPULATION") = some 0 ∧
     ((dedup0.should_alert "ETH/USD" "PRICE_MANIPULATION" .CRITICAL 0).2.should_alert
       "ETH/USD" "PRICE_MANIPULATION" .HIGH 60).1 = false) :=
  ⟨by decide, by decide,
   critical_bypasses_and_resets_cooldown dedup0 "ETH/USD" "PRICE_MANIPULATION" 0 60 .HIGH
     (by decide) (by decide)⟩

/-- C5: starting from a state with no recent entry for the key, of two
non-CRITICAL detections of the same `(feed, fraud_type)` within
`cooldown_minutes` of each other, exactly the first is admitted. -/
theorem noncritical_pair_exactly_one
    (st : AlertDeduplicator) (feed_name fraud_type : String) (t1 t2 : ℚ)
    (sev1 sev2 : AlertSeverity) (h1 : sev1 ≠ .CRITICAL) (h2 : sev2 ≠ .CRITICAL)
    (hnone : st.recent_alerts (dedupKey feed_name fraud_type) = none)
    (ht : (t2 - t1) / 60 < st.cooldown_minutes) :
    (st.should_alert feed_name fraud_type sev1 t1).1 = true ∧
    ((st.should_alert feed_name fraud_type sev1 t1).2.should_alert
      feed_name fraud_type sev2 t2).1 = false := by
  constructor
  · simp [should_alert, h1, hnone]
  · simp [should_alert, h1, h2, hnone, increment_count, ht]

/-- Witness for C5: two HIGH detections of one key one minute apart. -/
theorem noncritical_pair_exactly_one_witness :
    AlertSeverity.HIGH ≠ AlertSeverity.CRITICAL ∧
    dedup0.recent_alerts (dedupKey "ETH/USD" "VOLUME_ANOMALY") = none ∧
    ((60 : ℚ) - 0) / 60 < dedup0.cooldown_minutes ∧
    ((dedup0.should_alert "ETH/USD" "VOLUME_ANOMALY" .HIGH 0).1 = true ∧
     ((dedup0.should_alert "ETH/USD" "VOLUME_ANOMALY" .HIGH 0).2.should_alert
       "ETH/USD" "VOLUME_ANOMALY" .HIGH 60).1 = false) :=
  ⟨by decide, by decide, by decide,
   noncritical_pair_exactly_one dedup0 "ETH/USD" "VOLUME_ANOMALY" 0 60 .HIGH .HIGH
     (by decide) (by decide) (by decide) (by decide)⟩

/-- C8 counterexample: an admitted CRITICAL detection does not increment the
per-key counter — `should_alert` returns `True` from the CRITICAL branch
without calling `_increment_count`, so the claim that every admitted
detection increments the counter is false. -/
theorem critical_admission_skips_counter :
    (dedup0.should_alert "ETH/USD" "PRICE_MANIPULATION" .CRITICAL 0).1 = true ∧
    (dedup0.should_alert "ETH/USD" "PRICE_MANIPULATION" .CRITICAL 0).2.alert_counts
      (dedupKey "ETH/USD" "PRICE_MANIPULATION") = 0 := by
  constructor
  · decide
  · decide

/-- C8 as amended: every admitted detection stamps
`recent_alerts[key] = now`; the per-key counter is incremented exactly when
the admitted detection is non-CRITICAL (a CRITICAL admission leaves every
counter unchanged). -/
theorem admitted_detection_mutates_entry
    (st : AlertDeduplicator) (feed_name fraud_type : String)
    (sev : AlertSeverity) (now : ℚ)
    (hadm : (st.should_alert feed_name fraud_type sev now).1 = true) :
    (st.should_alert feed_name fraud_type sev now).2.recent_alerts
      (dedupKey feed_name fraud_type) = some now ∧
    (sev ≠ .CRITICAL →
      (st.should_alert feed_name fraud_type sev now).2.alert_counts
        (dedupKey feed_name fraud_type) =
        st.alert_counts (dedupKey feed_name fraud_type) + 1) ∧
    (sev = .CRITICAL →
      (st.should_alert feed_name fraud_type sev now).2.alert_counts =
        st.alert_counts) := by
  by_cases hc : sev = .CRITICAL
  · subst hc
    refine ⟨by simp [should_alert], fun h => absurd rfl h, fun _ => rfl⟩
  · refine ⟨?_, fun _ => ?_, fun h => absurd h hc⟩
    · rcases hlast : st.recent_alerts (dedupKey feed_name fraud_type) with _ | last
      · simp [should_alert, hc, hlast, increment_count]
      · by_cases hcd : (now - last) / 60 < st.cooldown_minutes
        · exfalso
          simp [should_alert, hc, hlast, hcd] at hadm
        · simp [should_alert, hc, hlast, hcd, increment_count]
    · rcases hlast : st.recent_alerts (dedupKey feed_name fraud_type) with _ | last
      · simp [should_alert, hc, hlast, increment_count]
      · by_cases hcd : (now - last) / 60 < st.cooldown_minutes
        · exfalso
          simp [should_alert, hc, hlast, hcd] at hadm
        · simp [should_alert, hc, hlast, hcd, increment_count]

/-- Witness for the amended C8: an admitted MEDIUM detection stamps the key
and bumps its counter. -/
theorem admitted_detection_mutates_entry_witness :
    (dedup0.should_alert "FEED" "LATENCY_SPIKE" .MEDIUM 7).1 = true ∧
    ((dedup0.should_alert "FEED" "LATENCY_SPIKE" .MEDIUM 7).2.recent_alerts
       (dedupKey "FEED" "LATENCY_SPIKE") = some 7 ∧
     (AlertSeverity.MEDIUM ≠ AlertSeverity.CRITICAL →
       (dedup0.should_alert "FEED" "LATENCY_SPIKE" .MEDIUM 7).2.alert_counts
         (dedupKey "FEED" "LATENCY_SPIKE") =
         dedup0.alert_counts (dedupKey "FEED" "LATENCY_SPIKE") + 1) ∧
     (AlertSeverity.MEDIUM = AlertSeverity.CRITICAL →
       (dedup0.should_alert "FEED" "LATENCY_SPIKE" .MEDIUM 7).2.alert_counts =
         dedup0.alert_counts)) :=
  ⟨by decide, admitted_detection_mutates_entry dedup0 "FEED" "LATENCY_SPIKE" .MEDIUM 7 (by decide)⟩

end AlertDeduplicator

/-! ## C9 — the webhook channel -/

namespace AlertNotifier

/-- C9 counterexample: an HTTP 204 response is a 2xx success, yet the
webhook channel records it as `False` — the source tests `status == 200`
only, so the claim that any 2xx status is recorded `True` is false. -/
theorem webhook_2xx_not_success :
    send_webhook (.ok 204) = false ∧ 200 ≤ 204 ∧ 204 ≤ 299 := by
  refine ⟨rfl, by decide, by decide⟩

/-- C9 as amended: the webhook channel's recorded result is `True` exactly
when the POST yields HTTP status 200; every other status (other 2xx codes
included) and every transport exception is recorded `False`, never raised. -/
theorem webhook_success_iff_status_200 (response : HttpOutcome) :
    send_webhook response = true ↔ response = .ok 200 := by
  cases response with
  | ok status => simp [send_webhook]
  | exn => simp [send_webhook]

end AlertNotifier

/-! ## C2, C3, C6 — the detector bank -/

namespace FraudDetector

/-- Fixture: prior price history before the same-direction flash-loan event. -/
def bufsFlash : Buffers := ⟨fun _ => [100, 120, 120], fun _ => []⟩

/-- Fixture: the price update completing the monotone climb 100, 120, 120, 144. -/
def evFlash : FeedEvent := ⟨"ETH/USD", 144, 10, 5, 0⟩

/-- Fixture: prior price history whose price five points back is zero. -/
def bufsSandwich : Buffers := ⟨fun _ => [0, 5, 5, 5], fun _ => []⟩

/-- Fixture: the event on which the sandwich detector divides by zero while
the latency detector has a result. -/
def evSandwich : FeedEvent := ⟨"FEED", 5, 0, 5, 1500⟩

set_option maxRecDepth 8000 in
/-- C2 (code bug): with price history 100, 120, 120, 144 — two moves of
+20 % each, in the SAME direction — the trigger fires (change 0.2 > 0.15)
and the code still emits the second CRITICAL FLASH_LOAN_ATTACK detection
(confidence 0.85, loss = 2 × the price-manipulation loss), because
`_is_flash_loan_pattern` takes `abs()` of both moves and never compares
their signs, contradicting the spec and the function's own comment
"Both changes significant and in opposite directions". -/
theorem flash_loan_same_direction_emitted :
    is_flash_loan_pattern [100, 120, 120, 144] = true ∧
    flash_loan_spec_pattern [100, 120, 120, 144] = false ∧
    (detect_fraud bufsFlash evFlash false (.ok 0)).2 =
      .ok [⟨.PRICE_MANIPULATION, .HIGH, 1, 1 / 5, 1 / 5⟩,
           ⟨.FLASH_LOAN_ATTACK, .CRITICAL, 17 / 20, 9 / 10, 2 / 5⟩] :=
  ⟨by decide, by decide, by decide⟩

set_option maxRecDepth 8000 in
/-- C3 counterexample: with prior prices 0, 5, 5, 5 and a high-latency
update, the latency detector produces a (nonempty) result, but the sandwich
detector raises ZeroDivisionError (`recent[4] - recent[0]` divided by
`recent[0] = 0`), the exception propagates out of `detect_fraud`, and no
detection of the event survives — one heuristic detector's exception
suppresses another detector's results, so the claim is false. -/
theorem sandwich_exception_suppresses_other_detectors :
    (detect_fraud bufsSandwich evSandwich false (.ok 0)).2 = .error .zeroDivisionError ∧
    detect_latency_spike evSandwich.latency_ms = [detLatency] :=
  ⟨by decide, by decide⟩

/-- C3 as amended: only the ML-backed detector's invocation is isolated — a
scorer failure never suppresses the heuristic detectors' results
(`detect_fraud` under a failing scorer equals `detect_fraud` with no model
loaded at all); an exception in a heuristic detector instead propagates out
of `detect_fraud`, dropping all of that event's detections (it is caught
only by `_process_message`, which keeps the pipeline alive). -/
theorem ml_failure_never_suppresses_heuristics
    (bufs : Buffers) (ev : FeedEvent) (e : PyErr) (s : ℚ) :
    detect_fraud bufs ev true (.error e) = detect_fraud bufs ev false (.ok s) := by
  unfold detect_fraud run_detectors
  dsimp only
  cases hsw : detect_sandwich_attack (pushBuffer (bufs.price_buffer ev.feed_name) ev.price) with
  | error e2 => rfl
  | ok d5 => simp [detect_with_ml]

end FraudDetector


/-- A clamped value `min x 1` with `0 ≤ x` lies in the unit interval. -/
theorem clamped_unit {x : ℚ} (hx : 0 ≤ x) : 0 ≤ min x 1 ∧ min x 1 ≤ 1 :=
  ⟨le_min hx zero_le_one, min_le_right x 1⟩

namespace FraudDetector

/-- Every price-manipulation (and flash-loan) detection has confidence in `[0,1]`. -/
theorem price_manipulation_confidence_bounds (prices : List ℚ) (volume : ℚ) :
    ∀ d ∈ detect_price_manipulation prices volume, 0 ≤ d.confidence ∧ d.confidence ≤ 1 := by
  intro d hd
  by_cases h1 : prices.length < 2
  · simp [detect_price_manipulation, h1] at hd
  · by_cases h2 : nthFromEnd prices 2 = 0
    · simp [detect_price_manipulation, h1, h2] at hd
    · by_cases h3 :
        |nthFromEnd prices 1 - nthFromEnd prices 2| / nthFromEnd prices 2 > price_change_threshold
      · have hnn : 0 ≤
            |nthFromEnd prices 1 - nthFromEnd prices 2| / nthFromEnd prices 2 /
              price_change_threshold := by
          have hp : (0 : ℚ) < price_change_threshold := by norm_num [price_change_threshold]
          have hc : (0 : ℚ) ≤
              |nthFromEnd prices 1 - nthFromEnd prices 2| / nthFromEnd prices 2 :=
            le_of_lt (lt_trans hp h3)
          positivity
        by_cases h4 : is_flash_loan_pattern prices
        · simp [detect_price_manipulation, h1, h2, h3, h4] at hd
          rcases hd with rfl | rfl
          · exact clamped_unit hnn
          · norm_num
        · simp [detect_price_manipulation, h1, h2, h3, h4] at hd
          rcases hd with rfl
          exact clamped_unit hnn
      · simp [detect_price_manipulation, h1, h2, h3] at hd

/-- Every volume-anomaly detection has confidence in `[0,1]`. -/
theorem volume_anomaly_confidence_bounds (volumes : List ℚ) :
    ∀ d ∈ detect_volume_anomaly volumes, 0 ≤ d.confidence ∧ d.confidence ≤ 1 := by
  intro d hd
  by_cases h1 : volumes.length < 10
  · simp [detect_volume_anomaly, h1] at hd
  · by_cases h2 : listMean volumes.dropLast = 0
    · simp [detect_volume_anomaly, h1, h2] at hd
    · by_cases h3 :
        nthFromEnd volumes 1 / listMean volumes.dropLast > volume_spike_threshold
      · have hnn : 0 ≤
            nthFromEnd volumes 1 / listMean volumes.dropLast / (volume_spike_threshold * 2) := by
          have hp : (0 : ℚ) < volume_spike_threshold := by norm_num [volume_spike_threshold]
          have hc : (0 : ℚ) ≤ nthFromEnd volumes 1 / listMean volumes.dropLast :=
            le_of_lt (lt_trans hp h3)
          positivity
        simp [detect_volume_anomaly, h1, h2, h3] at hd
        rcases hd with rfl
        exact clamped_unit hnn
      · simp [detect_volume_anomaly, h1, h2, h3] at hd

/-- Every latency-spike detection has confidence in `[0,1]`. -/
theorem latency_spike_confidence_bounds (latency : ℚ) :
    ∀ d ∈ detect_latency_spike latency, 0 ≤ d.confidence ∧ d.confidence ≤ 1 := by
  intro d hd
  by_cases h1 : latency > latency_spike_threshold
  · simp [detect_latency_spike, h1] at hd
    rcases hd with rfl
    norm_num
  · simp [detect_latency_spike, h1] at hd

/-- Every source-degradation detection has confidence in `[0,1]`. -/
theorem source_degradation_confidence_bounds (source_count : ℚ) :
    ∀ d ∈ detect_source_degradation source_count, 0 ≤ d.confidence ∧ d.confidence ≤ 1 := by
  intro d hd
  by_cases h1 : source_count < source_minimum
  · simp [detect_source_degradation, h1] at hd
    rcases hd with rfl
    norm_num
  · simp [detect_source_degradation, h1] at hd

/-- Every sandwich-attack detection (when the detector succeeds) has
confidence in `[0,1]`. -/
theorem sandwich_attack_confidence_bounds (prices : List ℚ) (d5 : List DetectionResult)
    (h : detect_sandwich_attack prices = .ok d5) :
    ∀ d ∈ d5, 0 ≤ d.confidence ∧ d.confidence ≤ 1 := by
  intro d hd
  unfold detect_sandwich_attack at h
  by_cases h1 : prices.length < 3
  · rw [if_pos h1] at h
    rcases Except.ok.inj h with rfl
    simp at hd
  · rw [if_neg h1] at h
    by_cases h2 : 5 ≤ prices.length
    · rw [if_pos h2] at h
      dsimp only at h
      by_cases h3 : (lastN 5 prices).getD 2 0 > (lastN 5 prices).getD 0 0 * (102 / 100)
      · rw [if_pos h3] at h
        unfold pydiv at h
        by_cases h4 : (lastN 5 prices).getD 0 0 = 0
        · rw [if_pos h4] at h
          exact Except.noConfusion h
        · rw [if_neg h4] at h
          dsimp only at h
          by_cases h5 :
              |(lastN 5 prices).getD 4 0 - (lastN 5 prices).getD 0 0| /
                (lastN 5 prices).getD 0 0 < 1 / 100
          · rw [if_pos h5] at h
            rcases Except.ok.inj h with rfl
            rcases List.mem_singleton.mp hd with rfl
            norm_num
          · rw [if_neg h5] at h
            rcases Except.ok.inj h with rfl
            simp at hd
      · rw [if_neg h3] at h
        rcases Except.ok.inj h with rfl
        simp at hd
    · rw [if_neg h2] at h
      rcases Except.ok.inj h with rfl
      simp at hd

/-- Every ML-backed detection has confidence in `[0,1]`. -/
theorem ml_confidence_bounds (prices : List ℚ) (ml : Bool) (sc : Except PyErr ℚ) :
    ∀ d ∈ detect_with_ml prices ml sc, 0 ≤ d.confidence ∧ d.confidence ≤ 1 := by
  intro d hd
  cases ml with
  | false => simp [detect_with_ml] at hd
  | true =>
    by_cases h2 : prices.length < 50
    · simp [detect_with_ml, h2] at hd
    · cases sc with
      | error e => simp [detect_with_ml, h2] at hd
      | ok s =>
        by_cases h3 : min (max s 0) 1 > anomaly_score_threshold
        · simp [detect_with_ml, h2, h3] at hd
          rcases hd with rfl
          exact ⟨le_min (le_max_right s 0) zero_le_one, min_le_right _ _⟩
        · simp [detect_with_ml, h2, h3] at hd

/-- C6: every detection produced by any detector inside `detect_fraud` —
price manipulation, flash loan, volume anomaly, latency spike, source
degradation, sandwich attack, ML-backed — has its confidence in the closed
interval `[0,1]`, for every event and every rolling-history state. -/
theorem detection_confidence_in_unit_interval
    (bufs : Buffers) (ev : FeedEvent) (ml : Bool) (sc : Except PyErr ℚ)
    (dets : List DetectionResult)
    (h : (detect_fraud bufs ev ml sc).2 = .ok dets) :
    ∀ d ∈ dets, 0 ≤ d.confidence ∧ d.confidence ≤ 1 := by
  unfold detect_fraud run_detectors at h
  dsimp only at h
  rcases hsw : detect_sandwich_attack (pushBuffer (bufs.price_buffer ev.feed_name) ev.price)
    with e | d5
  · rw [hsw] at h
    exact Except.noConfusion h
  · rw [hsw] at h
    rcases Except.ok.inj h with h2
    intro d hd
    rw [← h2] at hd
    simp only [List.mem_append] at hd
    rcases hd with ((((h3 | h3) | h3) | h3) | h3) | h3
    · exact price_manipulation_confidence_bounds _ _ d h3
    · exact volume_anomaly_confidence_bounds _ d h3
    · exact latency_spike_confidence_bounds _ d h3
    · exact source_degradation_confidence_bounds _ d h3
    · exact sandwich_attack_confidence_bounds _ _ hsw d h3
    · exact ml_confidence_bounds _ _ _ d h3

set_option maxRecDepth 8000 in
/-- Witness for C6: a concrete run whose single detection (the latency
spike) indeed has confidence in `[0,1]`. -/
theorem detection_confidence_in_unit_interval_witness :
    (detect_fraud bufsEmpty evLatency false (.ok 0)).2 = .ok [detLatency] ∧
    (0 ≤ detLatency.confidence ∧ detLatency.confidence ≤ 1) :=
  ⟨by decide,
   detection_confidence_in_unit_interval bufsEmpty evLatency false (.ok 0) [detLatency]
     (by decide) detLatency (by decide)⟩

end FraudDetector

/-! ## C4, C10 — circuit breaker and external anomalies -/

namespace FraudAlertsPipeline

/-- `_process_detection` never removes a feed from the active breaker set. -/
theorem process_detection_breaker_mono (cfg : PipelineConfig) (st : PipelineState)
    (feed_name : String) (d : DetectionResult) (now : ℚ) (now_iso : String) :
    st.circuit_breaker_active ⊆
      (process_detection cfg st feed_name d now now_iso).1.circuit_breaker_active := by
  unfold process_detection
  dsimp only
  split
  · split
    · exact Finset.subset_insert _ _
    · exact Finset.Subset.refl _
  · exact Finset.Subset.refl _

/-- The detection loop never removes a feed from the active breaker set. -/
theorem process_detections_breaker_mono (cfg : PipelineConfig) (feed_name : String)
    (now : ℚ) (now_iso : String) :
    ∀ (dets : List DetectionResult) (st : PipelineState),
      st.circuit_breaker_active ⊆
        (process_detections cfg feed_name now now_iso st dets).1.circuit_breaker_active := by
  intro dets
  induction dets with
  | nil => exact fun st => Finset.Subset.refl _
  | cons d ds ih =>
    intro st
    exact (process_detection_breaker_mono cfg st feed_name d now now_iso).trans
      (ih (process_detection cfg st feed_name d now now_iso).1)

/-- One step of the pipeline keeps an active breaker active (absent an
explicit deactivation of that feed) and never evaluates the detector bank
on the broken feed. -/
theorem step_preserves_breaker (cfg : PipelineConfig) (st : PipelineState)
    (op : PipelineOp) (feed : String)
    (hmem : feed ∈ st.circuit_breaker_active)
    (hne : op ≠ PipelineOp.deactivate feed) :
    feed ∈ (step cfg st op).1.circuit_breaker_active ∧
    (step cfg st op).2.detector_ran_on ≠ some feed := by
  cases op with
  | priceUpdate ev ml sc now iso =>
    simp only [step]
    unfold handle_price_update
    by_cases hin : ev.feed_name ∈ st.circuit_breaker_active
    · rw [if_pos hin]
      exact ⟨hmem, by simp⟩
    · rw [if_neg hin]
      have hnefeed : ev.feed_name ≠ feed := fun hcontra => hin (hcontra ▸ hmem)
      dsimp only
      cases hr : (FraudDetector.detect_fraud st.detector ev ml sc).2 with
      | error e => exact ⟨hmem, by simp [hnefeed]⟩
      | ok dets =>
        refine ⟨?_, by simp [hnefeed]⟩
        exact process_detections_breaker_mono cfg ev.feed_name now iso dets
          { st with detector := (FraudDetector.detect_fraud st.detector ev ml sc).1 } hmem
  | anomalyDetected d iso => exact ⟨hmem, by simp [step, handle_external_anomaly]⟩
  | deactivate f =>
    have hne2 : feed ≠ f := fun hcontra => hne (by rw [hcontra])
    simp only [step]
    unfold deactivate_circuit_breaker
    exact ⟨Finset.mem_erase.mpr ⟨hne2, hmem⟩, by simp⟩

/-- Running any sequence of ops that never deactivates `feed` keeps its
breaker active and never evaluates the detector bank on `feed`. -/
theorem run_preserves_breaker (cfg : PipelineConfig) (feed : String) :
    ∀ (ops : List PipelineOp) (st : PipelineState),
      feed ∈ st.circuit_breaker_active →
      (∀ op ∈ ops, op ≠ PipelineOp.deactivate feed) →
      feed ∈ (run cfg st ops).1.circuit_breaker_active ∧
      ∀ tr ∈ (run cfg st ops).2, tr.detector_ran_on ≠ some feed := by
  intro ops
  induction ops with
  | nil =>
    intro st hmem _
    exact ⟨hmem, by simp [run]⟩
  | cons op ops ih =>
    intro st hmem hnd
    have h1 := step_preserves_breaker cfg st op feed hmem (hnd op (List.mem_cons_self op ops))
    have h2 := ih (step cfg st op).1 h1.1 (fun o ho => hnd o (List.mem_cons_of_mem op ho))
    refine ⟨h2.1, ?_⟩
    intro tr htr
    rcases List.mem_cons.mp htr with rfl | hmem2
    · exact h1.2
    · exact h2.2 tr hmem2

end FraudAlertsPipeline

/-- Fixture: a pipeline state whose only active circuit breaker is `ETH/USD`. -/
def stBroken : FraudAlertsPipeline.PipelineState := ⟨bufsEmpty, dedup0, [], {"ETH/USD"}⟩

/-- Fixture: a placeholder alert used as the `alert` argument of
`_activate_circuit_breaker`. -/
def alert0 : FraudAlert :=
  ⟨"a1b2", "2024-01-01T00:00:00", "ETH/USD", "PRICE_MANIPULATION", "HIGH",
   1, 1, [], [], 0, false, none, "OPEN", []⟩

/-- Fixture: a price update on the broken feed. -/
def evBroken : FeedEvent := ⟨"ETH/USD", 2400, 100, 5, 0⟩

namespace FraudAlertsPipeline

/-- C4: once a feed's circuit breaker is active, (a) a further activation
leaves the breaker set unchanged (activation is idempotent on state), and
(b) for every subsequent sequence of pipeline steps containing no explicit
`deactivate_circuit_breaker` for that feed, the breaker stays active and no
`price:update` of that feed ever reaches detector-bank evaluation. -/
theorem circuit_breaker_idempotent_and_excludes
    (cfg : PipelineConfig) (st : PipelineState) (feed : String) (a : FraudAlert)
    (ops : List PipelineOp)
    (hmem : feed ∈ st.circuit_breaker_active)
    (hnd : ∀ op ∈ ops, op ≠ PipelineOp.deactivate feed) :
    (activate_circuit_breaker st feed a).circuit_breaker_active =
      st.circuit_breaker_active ∧
    feed ∈ (run cfg st ops).1.circuit_breaker_active ∧
    ∀ tr ∈ (run cfg st ops).2, tr.detector_ran_on ≠ some feed := by
  refine ⟨?_, (run_preserves_breaker cfg feed ops st hmem hnd).1,
    (run_preserves_breaker cfg feed ops st hmem hnd).2⟩
  exact Finset.insert_eq_self.mpr hmem

/-- Witness for C4: with `ETH/USD` broken, a further price update on
`ETH/USD` is skipped (no detector evaluation) and re-activation is a no-op. -/
theorem circuit_breaker_idempotent_and_excludes_witness :
    ("ETH/USD" ∈ stBroken.circuit_breaker_active) ∧
    (∀ op ∈ [PipelineOp.priceUpdate evBroken false (.ok 0) 0 "2024-01-01T00:00:00"],
      op ≠ PipelineOp.deactivate "ETH/USD") ∧
    ((activate_circuit_breaker stBroken "ETH/USD" alert0).circuit_breaker_active =
       stBroken.circuit_breaker_active ∧
     "ETH/USD" ∈ (run cfg0 stBroken
       [PipelineOp.priceUpdate evBroken false (.ok 0) 0 "2024-01-01T00:00:00"]).1.circuit_breaker_active ∧
     ∀ tr ∈ (run cfg0 stBroken
       [PipelineOp.priceUpdate evBroken false (.ok 0) 0 "2024-01-01T00:00:00"]).2,
       tr.detector_ran_on ≠ some "ETH/USD") :=
  ⟨by decide, by decide,
   circuit_breaker_idempotent_and_excludes cfg0 stBroken "ETH/USD" alert0
     [PipelineOp.priceUpdate evBroken false (.ok 0) 0 "2024-01-01T00:00:00"]
     (by decide) (by decide)⟩

/-- C10: every (parsed) `anomaly:detected` message makes
`_handle_external_anomaly` store and dispatch exactly one ORACLE_SPOOFING /
HIGH alert built from the message fields, for EVERY pipeline state: the
dedup state is never consulted or changed and the feed's circuit breaker is
ignored — unlike a `price:update`, which emits nothing when its feed's
breaker is active. -/
theorem external_anomaly_bypasses_gates
    (cfg : PipelineConfig) (st : PipelineState) (d : AnomalyData) (iso : String)
    (ev : FeedEvent) (ml : Bool) (sc : Except PyErr ℚ) (now : ℚ) (iso2 : String)
    (hev : ev.feed_name ∈ st.circuit_breaker_active) :
    (step cfg st (.anomalyDetected d iso)).2.emitted =
      [create_alert d.feed_name .ORACLE_SPOOFING .HIGH d.confidence d.score
        d.potential_loss iso] ∧
    (step cfg st (.anomalyDetected d iso)).1.alerts_generated =
      st.alerts_generated ++ (step cfg st (.anomalyDetected d iso)).2.emitted ∧
    (step cfg st (.anomalyDetected d iso)).1.dedup = st.dedup ∧
    (step cfg st (.anomalyDetected d iso)).1.circuit_breaker_active =
      st.circuit_breaker_active ∧
    (step cfg st (.priceUpdate ev ml sc now iso2)).2.emitted = [] := by
  refine ⟨rfl, rfl, rfl, rfl, ?_⟩
  simp only [step]
  unfold handle_price_update
  rw [if_pos hev]

/-- Fixture: a pre-classified external anomaly on the broken feed. -/
def anomaly0 : AnomalyData := ⟨"ETH/USD", 8 / 10, 8 / 10, 0⟩

/-- Witness for C10: on a state whose `ETH/USD` breaker is active, the
external anomaly is still emitted while the price update is not. -/
theorem external_anomaly_bypasses_gates_witness :
    ("ETH/USD" : String) = evBroken.feed_name ∧
    (evBroken.feed_name ∈ stBroken.circuit_breaker_active) ∧
    ((step cfg0 stBroken (.anomalyDetected anomaly0 "2024-01-01T00:00:00")).2.emitted =
       [create_alert anomaly0.feed_name .ORACLE_SPOOFING .HIGH anomaly0.confidence
         anomaly0.score anomaly0.potential_loss "2024-01-01T00:00:00"] ∧
     (step cfg0 stBroken (.anomalyDetected anomaly0 "2024-01-01T00:00:00")).1.alerts_generated =
       stBroken.alerts_generated ++
         (step cfg0 stBroken (.anomalyDetected anomaly0 "2024-01-01T00:00:00")).2.emitted ∧
     (step cfg0 stBroken (.anomalyDetected anomaly0 "2024-01-01T00:00:00")).1.dedup =
       stBroken.dedup ∧
     (step cfg0 stBroken (.anomalyDetected anomaly0 "2024-01-01T00:00:00")).1.circuit_breaker_active =
       stBroken.circuit_breaker_active ∧
     (step cfg0 stBroken (.priceUpdate evBroken false (.ok 0) 0 "2024-01-01T00:00:01")).2.emitted = []) :=
  ⟨rfl, by decide,
   external_anomaly_bypasses_gates cfg0 stBroken anomaly0 "2024-01-01T00:00:00"
     evBroken false (.ok 0) 0 "2024-01-01T00:00:01" (by decide)⟩

end FraudAlertsPipeline

/-! ## C7 — alert id generation -/

namespace Sha256

/-- One word renders to exactly eight hex characters. -/
theorem wordHexChars_length (x : ℕ) : (wordHexChars x).length = 8 := by
  simp [wordHexChars]

/-- A digest renders to exactly 64 hex characters. -/
theorem digestChars_length (hs : HState) : (digestChars hs).length = 64 := by
  simp [digestChars, wordHexChars_length]

/-- `hexdigest` always has 64 characters. -/
theorem hexdigestChars_length (s : String) : (hexdigestChars s).length = 64 :=
  digestChars_length (sha256Bytes (utf8Bytes s))

end Sha256

namespace FraudAlertsPipeline

set_option maxRecDepth 10000 in
/-- C7: `_generate_alert_id` is a pure function of
`(feed_name, fraud_type, timestamp)` — equal inputs give equal ids — and
the id is exactly the first 16 hex characters of the SHA-256 digest of
`"feed_name:fraud_type:timestamp"` (in particular it always has 16
characters); at concrete inputs, changing only the timestamp changes the
id, as the claim's collision-freedom expects. -/
theorem alert_id_deterministic_digest
    (f1 ft1 ts1 f2 ft2 ts2 : String)
    (h1 : f1 = f2) (h2 : ft1 = ft2) (h3 : ts1 = ts2) :
    generate_alert_id f1 ft1 ts1 = generate_alert_id f2 ft2 ts2 ∧
    generate_alert_id f1 ft1 ts1 =
      String.mk ((Sha256.hexdigestChars (f1 ++ ":" ++ ft1 ++ ":" ++ ts1)).take 16) ∧
    (generate_alert_id f1 ft1 ts1).length = 16 ∧
    generate_alert_id "ETH/USD" "PRICE_MANIPULATION" "2024-01-01T00:00:00" ≠
      generate_alert_id "ETH/USD" "PRICE_MANIPULATION" "2024-01-01T00:00:01" := by
  subst h1 h2 h3
  refine ⟨rfl, rfl, ?_, by decide⟩
  show ((Sha256.hexdigestChars (f1 ++ ":" ++ ft1 ++ ":" ++ ts1)).take 16).length = 16
  rw [List.length_take, Sha256.hexdigestChars_length]
  norm_num

/-- Witness for C7 at concrete equal inputs. -/
theorem alert_id_deterministic_digest_witness :
    generate_alert_id "ETH/USD" "PRICE_MANIPULATION" "2024-01-01T00:00:00" =
      generate_alert_id "ETH/USD" "PRICE_MANIPULATION" "2024-01-01T00:00:00" ∧
    generate_alert_id "ETH/USD" "PRICE_MANIPULATION" "2024-01-01T00:00:00" =
      String.mk ((Sha256.hexdigestChars
        ("ETH/USD" ++ ":" ++ "PRICE_MANIPULATION" ++ ":" ++ "2024-01-01T00:00:00")).take 16) ∧
    (generate_alert_id "ETH/USD" "PRICE_MANIPULATION" "2024-01-01T00:00:00").length = 16 ∧
    generate_alert_id "ETH/USD" "PRICE_MANIPULATION" "2024-01-01T00:00:00" ≠
      generate_alert_id "ETH/USD" "PRICE_MANIPULATION" "2024-01-01T00:00:01" :=
  alert_id_deterministic_digest "ETH/USD" "PRICE_MANIPULATION" "2024-01-01T00:00:00"
    "ETH/USD" "PRICE_MANIPULATION" "2024-01-01T00:00:00" rfl rfl rfl

end FraudAlertsPipeline
